import Mathlib

/-
Verification of the SSE workflow monitoring engine (monitor module of the
revyl-gh-action repository).  The definitions below are a shallow embedding of
the module exporting monitorWorkflow: the session state captures every mutable
variable closed over by the handlers, and the step function executes one
callback invocation (SSE open/event/error, a timer firing, an HTTP response
arriving) exactly as the corresponding JavaScript handler does.  Invocations of
the promise callbacks resolve and reject are recorded in order in the settles
field; invocations of fetchFinalWorkflowResults are recorded in fallbackCalls.
Logging (core.info, core.warning, core.error) and the exported outputs
(core.setOutput) are not modelled; they do not feed back into control flow.
-/

namespace Monitor

/-- Reconnection configuration constants of the monitor module. -/
def MAX_RECONNECT_ATTEMPTS : Nat := 10

/-- Maximum backoff delay in milliseconds. -/
def MAX_BACKOFF_MS : Nat := 30000

/-- Initial backoff delay in milliseconds. -/
def INITIAL_BACKOFF_MS : Nat := 1000

/-- Terminal values the session can resolve with; the JavaScript promise value
null (timeout / unknown) is modelled as none at the use sites. -/
inductive MonitorResult
  | completed
  | failed
  | cancelled
deriving DecidableEq, Repr

/-- One invocation of the promise executor callbacks: resolve carries the
resolved value (none models null), rejectCall carries the error message. -/
inductive SettleCall
  | resolveCall (v : Option MonitorResult)
  | rejectCall (msg : String)
deriving DecidableEq, Repr

/-- The four call sites of fetchFinalWorkflowResults inside monitorWorkflow:
after the reconnection limit is reached (giveUpK), when a previously seen
workflow disappears from the initial_state running list (vanishedK), and the
results fetches performed by the workflow_completed and workflow_failed
handlers (completedK, failedK). -/
inductive FallbackKind
  | giveUpK
  | vanishedK
  | completedK
  | failedK
deriving DecidableEq, Repr

/-- Value stored in the activeTests map: name and start time of a child test. -/
structure TestInfo where
  name : String
  startTime : Nat
deriving DecidableEq, Repr

/-- Parsed payload of a server-pushed error event; the handler reads only the
error and message fields, task_id is carried to show it is never consulted. -/
structure ErrorData where
  error : Option String
  message : Option String
  task_id : Option String
deriving DecidableEq, Repr

/-- One entry of the tests array of a workflow task returned by the REST API. -/
structure TestEntry where
  status : String
  err : Option String
deriving DecidableEq, Repr

/-- Body of the workflow task REST response (WorkflowTasksBaseSchema); fields
that may be absent in the JSON are Options. -/
structure TaskBody where
  status : Option String
  success : Option Bool
  total_tests : Option Nat
  completed_tests : Option Nat
  tests : Option (List TestEntry)
deriving DecidableEq, Repr

/-- Value returned by fetchFinalWorkflowResults on success. -/
structure WorkflowResults where
  status : Option String
  success : Option Bool
  total_tests : Nat
  completed_tests : Nat
  passed_tests : Nat
  failed_tests : Nat
  tests : List TestEntry
deriving DecidableEq, Repr

/-- SSE events as consumed by the listeners of monitorWorkflow, carrying
exactly the payload fields the handlers read.  malformedEvent stands for an
event whose JSON payload fails to parse (safeParseEventData returns null and
the handler returns immediately).  The initialState payload is projected to
the list of task ids of running_workflows entries; errorEv carries the parse
result of the payload (none when the data is not valid JSON). -/
inductive SseEvent
  | connectionReady
  | initialState (runningTaskIds : List String)
  | workflowStartedEv (taskId : String)
  | workflowUpdated
  | workflowCompletedEv (taskId : String)
  | workflowFailedEv (taskId : String)
  | workflowCancelledEv (taskId : String)
  | heartbeat
  | testStartedEv (parentWorkflowTaskId : String) (testTaskId : String) (testName : String)
  | testUpdated
  | testCompletedEv (taskId : String)
  | testCompletedWithData (taskId : String)
  | testFailedEv (taskId : String)
  | testFailedWithData (taskId : String)
  | testCancelledWithData (taskId : String)
  | errorEv (data : Option ErrorData)
  | malformedEvent
deriving DecidableEq, Repr

/-- One callback delivery to the session: an SSE signal on a given connection
(identified by its sequence number; signals of a closed or replaced connection
are ignored, as the EventSource was closed), a timer firing, the HTTP response
of a fetchFinalWorkflowResults call arriving, or wall-clock time passing. -/
inductive Signal
  | tick (dt : Nat)
  | sseOpen (connId : Nat)
  | sseEvent (connId : Nat) (e : SseEvent)
  | sseError (connId : Nat)
  | connTimeoutFire (connId : Nat)
  | backoffFire (timerId : Nat)
  | fallbackResponse (reqId : Nat) (resp : Option (Nat × TaskBody))
deriving DecidableEq, Repr

/-- Arguments of one monitorWorkflow call that the transitions depend on. -/
structure Config where
  taskId : String
  timeoutSeconds : Nat
deriving DecidableEq, Repr

/-- The mutable state closed over by the handlers of monitorWorkflow, plus
bookkeeping for scheduled timers and in-flight fallback requests, plus the
instrumentation lists settles and fallbackCalls.  now is Date.now() minus
startTime. -/
structure SessionState where
  reconnectAttempts : Nat
  currentConn : Option Nat
  isIntentionallyClosed : Bool
  finalStatus : Option MonitorResult
  workflowStarted : Bool
  reconnectTimeoutHandle : Option (Nat × Nat)
  activeTests : List (String × TestInfo)
  testsPassed : Nat
  testsFailed : Nat
  workflowHeaderLogged : Bool
  now : Nat
  connCounter : Nat
  timerCounter : Nat
  connTimers : List (Nat × Nat)
  pendingFallbacks : List (Nat × FallbackKind × Nat)
  reqCounter : Nat
  settles : List SettleCall
  fallbackCalls : List FallbackKind
deriving DecidableEq, Repr

/-- Exponential backoff delay: 1s, 2s, 4s, 8s, 16s, 30s (capped). -/
def calculateBackoffDelay (attempts : Nat) : Nat :=
  min MAX_BACKOFF_MS (INITIAL_BACKOFF_MS * 2 ^ attempts)

/-- What the onerror handler decides after incrementing reconnectAttempts to
the given value: give up (reconnectAttempts has reached the limit), stop
because the overall timeout elapsed, or retry after a backoff delay.  The
branch order is that of the handler: the limit is checked before the clock. -/
inductive RetryDecision
  | retry (delayMs : Nat)
  | giveUp
  | timeoutStop
deriving DecidableEq, Repr

/-- The decision structure of the onerror handler, taking the post-increment
attempt counter and whether the overall timeout has elapsed. -/
def reconnectDecision (attempts : Nat) (timedOut : Bool) : RetryDecision :=
  if MAX_RECONNECT_ATTEMPTS ≤ attempts then RetryDecision.giveUp
  else if timedOut then RetryDecision.timeoutStop
  else RetryDecision.retry (calculateBackoffDelay (attempts - 1))

/-- JavaScript a-or-b on strings: undefined and the empty string are falsy. -/
def jsOr (a : Option String) (b : String) : String :=
  match a with
  | some s => if s = "" then b else s
  | none => b

/-- Error message built by the error event listener:
data.error or data.message or a generic text. -/
def sseErrorMessage (d : ErrorData) : String :=
  jsOr d.error (jsOr d.message "Unknown SSE error")

/-- Lowercasing for the ASCII status strings the protocol uses,
written over the character list so that it evaluates by structural recursion. -/
def asciiToLower (s : String) : String :=
  String.mk (s.data.map Char.toLower)

/-- JavaScript truthiness of results.status: present and nonempty. -/
def statusTruthy (st : Option String) : Bool :=
  match st with
  | some s => s ≠ ""
  | none => false

/-- fetchFinalWorkflowResults: given the outcome of the HTTP GET (none when
the request or JSON parsing threw, some with status code and parsed task body
otherwise), return the results record, or none unless the status code is 200.
passed and failed counts are computed from the tests array. -/
def fetchFinalWorkflowResults (resp : Option (Nat × TaskBody)) : Option WorkflowResults :=
  match resp with
  | none => none
  | some (code, task) =>
    if code = 200 then
      let ts := task.tests.getD []
      some { status := task.status
             success := task.success
             total_tests := task.total_tests.getD 0
             completed_tests := task.completed_tests.getD 0
             passed_tests := (ts.filter (fun t => t.status = "passed" ∨ t.status = "success")).length
             failed_tests := (ts.filter (fun t => t.status = "failed" ∨ t.status = "error")).length
             tests := ts }
    else none

/-- Key membership in the activeTests map. -/
def mapHas (m : List (String × TestInfo)) (k : String) : Bool :=
  m.any (fun p => p.1 = k)

/-- Key removal from the activeTests map (keys are unique by construction). -/
def mapErase (m : List (String × TestInfo)) (k : String) : List (String × TestInfo) :=
  m.filter (fun p => ¬ p.1 = k)

/-- Record one invocation of resolve or reject. -/
def settle (s : SessionState) (c : SettleCall) : SessionState :=
  { s with settles := s.settles ++ [c] }

/-- cleanup(): set isIntentionallyClosed, close the current EventSource,
clear a pending reconnect timer. -/
def cleanup (s : SessionState) : SessionState :=
  { s with isIntentionallyClosed := true
           currentConn := none
           reconnectTimeoutHandle := none }

/-- clearTimeout(connectionTimeout) for the per-connection timeout timer of
the given connection. -/
def clearConnTimer (connId : Nat) (s : SessionState) : SessionState :=
  { s with connTimers := s.connTimers.filter (fun p => ¬ p.1 = connId) }

/-- Start a fetchFinalWorkflowResults call: registers the in-flight request
(with the connection whose handler launched it) and records the invocation. -/
def launchFallback (kind : FallbackKind) (connId : Nat) (s : SessionState) : SessionState :=
  { s with pendingFallbacks := s.pendingFallbacks ++ [(s.reqCounter, kind, connId)]
           reqCounter := s.reqCounter + 1
           fallbackCalls := s.fallbackCalls ++ [kind] }

/-- Overall timeout in milliseconds. -/
def timeoutMsOf (cfg : Config) : Nat := cfg.timeoutSeconds * 1000

/-- isTimedOut(): whether the overall timeout has elapsed. -/
def isTimedOut (cfg : Config) (s : SessionState) : Bool :=
  timeoutMsOf cfg ≤ s.now

/-- getRemainingTime(): time left until the deadline (clipped at zero by
truncated subtraction, matching Math.max(0, ...)). -/
def getRemainingTime (cfg : Config) (s : SessionState) : Nat :=
  timeoutMsOf cfg - s.now

/-- createConnection(): no-op once intentionally closed; resolves null when
the deadline already elapsed; otherwise opens a fresh EventSource and arms its
connection timeout for the remaining time. -/
def createConnection (cfg : Config) (s : SessionState) : SessionState :=
  if s.isIntentionallyClosed then s
  else if isTimedOut cfg s then
    settle (cleanup s) (SettleCall.resolveCall none)
  else
    { s with currentConn := some s.connCounter
             connCounter := s.connCounter + 1
             connTimers := s.connTimers ++ [(s.connCounter, s.now + getRemainingTime cfg s)] }

/-- Tail of the onerror handler, applied to the state after the connection is
closed and the attempt counter incremented: give up (launching the REST
fallback), stop on timeout (resolving null), or arm the backoff timer for the
next createConnection. -/
def onErrorDecide (cfg : Config) (connId : Nat) (s2 : SessionState) : SessionState :=
  match reconnectDecision s2.reconnectAttempts (isTimedOut cfg s2) with
  | RetryDecision.giveUp =>
      launchFallback FallbackKind.giveUpK connId (cleanup (clearConnTimer connId s2))
  | RetryDecision.timeoutStop =>
      settle (cleanup (clearConnTimer connId s2)) (SettleCall.resolveCall none)
  | RetryDecision.retry delay =>
      { s2 with reconnectTimeoutHandle := some (s2.timerCounter, s2.now + delay)
                timerCounter := s2.timerCounter + 1 }

/-- The onerror handler of one connection: guarded against closed or finished
sessions; closes the connection, increments the attempt counter, then decides
between give-up, timeout stop and backoff retry. -/
def onError (cfg : Config) (connId : Nat) (s : SessionState) : SessionState :=
  if s.isIntentionallyClosed || s.finalStatus.isSome then s
  else
    onErrorDecide cfg connId
      { s with currentConn := none, reconnectAttempts := s.reconnectAttempts + 1 }

/-- The test_started listener: only children of the monitored workflow are
tracked, and a child already present in the map is not re-inserted. -/
def processTestStarted (cfg : Config) (parentId testTaskId testName : String)
    (s : SessionState) : SessionState :=
  if parentId = cfg.taskId then
    if mapHas s.activeTests testTaskId then s
    else { s with activeTests := (testTaskId, { name := testName, startTime := s.now }) :: s.activeTests }
  else s

/-- handleTestCompletion: counts a pass or failure and removes the child from
the map, but only when the child is currently tracked. -/
def handleTestCompletion (testTaskId : String) (passed : Bool)
    (s : SessionState) : SessionState :=
  if mapHas s.activeTests testTaskId then
    if passed then
      { s with testsPassed := s.testsPassed + 1
               activeTests := mapErase s.activeTests testTaskId }
    else
      { s with testsFailed := s.testsFailed + 1
               activeTests := mapErase s.activeTests testTaskId }
  else s

/-- The error event listener: when the payload parses as JSON the session is
torn down and rejected with the extracted message; a payload that is not JSON
is left to the onerror handler. -/
def errorEventHandler (connId : Nat) (d : Option ErrorData) (s : SessionState) : SessionState :=
  match d with
  | some data =>
      settle (cleanup (clearConnTimer connId s))
        (SettleCall.rejectCall ("SSE error: " ++ sseErrorMessage data))
  | none => s

/-- Continuation of the fetchFinalWorkflowResults call made after the
reconnection limit was reached: a usable status is lowercased and mapped to a
resolution, an unrecognized status resolves null, and a missing or unusable
answer rejects. -/
def giveUpContinuation (results : Option WorkflowResults) (s : SessionState) : SessionState :=
  match results with
  | some r =>
    if statusTruthy r.status then
      if asciiToLower (r.status.getD "") = "completed" ∨ asciiToLower (r.status.getD "") = "success" then
        settle s (SettleCall.resolveCall (some MonitorResult.completed))
      else if asciiToLower (r.status.getD "") = "failed" ∨ asciiToLower (r.status.getD "") = "error"
          ∨ asciiToLower (r.status.getD "") = "timeout" then
        settle s (SettleCall.resolveCall (some MonitorResult.failed))
      else if asciiToLower (r.status.getD "") = "cancelled" then
        settle s (SettleCall.resolveCall (some MonitorResult.cancelled))
      else
        settle s (SettleCall.resolveCall none)
    else settle s (SettleCall.rejectCall "SSE connection failed and could not fetch final status")
  | none => settle s (SettleCall.rejectCall "SSE connection failed and could not fetch final status")

/-- Continuation of the fetchFinalWorkflowResults call made when the workflow
vanished from the initial_state running list: guarded by finalStatus still
being null; recognized statuses set finalStatus, tear down and resolve, an
unrecognized status does nothing. -/
def vanishedContinuation (connId : Nat) (results : Option WorkflowResults)
    (s : SessionState) : SessionState :=
  match results with
  | some r =>
    if statusTruthy r.status && s.finalStatus.isNone then
      if asciiToLower (r.status.getD "") = "completed" ∨ asciiToLower (r.status.getD "") = "success" then
        settle (cleanup (clearConnTimer connId { s with finalStatus := some MonitorResult.completed }))
          (SettleCall.resolveCall (some MonitorResult.completed))
      else if asciiToLower (r.status.getD "") = "failed" ∨ asciiToLower (r.status.getD "") = "error"
          ∨ asciiToLower (r.status.getD "") = "timeout" then
        settle (cleanup (clearConnTimer connId { s with finalStatus := some MonitorResult.failed }))
          (SettleCall.resolveCall (some MonitorResult.failed))
      else if asciiToLower (r.status.getD "") = "cancelled" then
        settle (cleanup (clearConnTimer connId { s with finalStatus := some MonitorResult.cancelled }))
          (SettleCall.resolveCall (some MonitorResult.cancelled))
      else s
    else s
  | none => s

/-- Dispatch of an HTTP response to the continuation of the request kind; the
continuations of the workflow_completed and workflow_failed results fetches
only assign outputs and are state-neutral here. -/
def fallbackContinuation (kind : FallbackKind) (connId : Nat)
    (results : Option WorkflowResults) (s : SessionState) : SessionState :=
  match kind with
  | FallbackKind.giveUpK => giveUpContinuation results s
  | FallbackKind.vanishedK => vanishedContinuation connId results s
  | FallbackKind.completedK => s
  | FallbackKind.failedK => s

/-- Dispatch of one SSE event delivered on the given connection to the
listener registered for its type. -/
def processEvent (cfg : Config) (connId : Nat) (e : SseEvent) (s : SessionState) : SessionState :=
  match e with
  | SseEvent.connectionReady => s
  | SseEvent.heartbeat => s
  | SseEvent.workflowUpdated => s
  | SseEvent.testUpdated => s
  | SseEvent.malformedEvent => s
  | SseEvent.initialState runningTaskIds =>
      if runningTaskIds.contains cfg.taskId then
        { s with workflowStarted := true, workflowHeaderLogged := true }
      else if s.workflowStarted then
        launchFallback FallbackKind.vanishedK connId s
      else s
  | SseEvent.workflowStartedEv tid =>
      if tid = cfg.taskId then
        { s with workflowStarted := true, workflowHeaderLogged := true }
      else s
  | SseEvent.workflowCompletedEv tid =>
      if tid = cfg.taskId then
        settle (cleanup (clearConnTimer connId (launchFallback FallbackKind.completedK connId
            { s with finalStatus := some MonitorResult.completed })))
          (SettleCall.resolveCall (some MonitorResult.completed))
      else s
  | SseEvent.workflowFailedEv tid =>
      if tid = cfg.taskId then
        settle (cleanup (clearConnTimer connId (launchFallback FallbackKind.failedK connId
            { s with finalStatus := some MonitorResult.failed })))
          (SettleCall.resolveCall (some MonitorResult.failed))
      else s
  | SseEvent.workflowCancelledEv tid =>
      if tid = cfg.taskId then
        settle (cleanup (clearConnTimer connId { s with finalStatus := some MonitorResult.cancelled }))
          (SettleCall.resolveCall (some MonitorResult.cancelled))
      else s
  | SseEvent.testStartedEv parentId testTaskId testName =>
      processTestStarted cfg parentId testTaskId testName s
  | SseEvent.testCompletedEv tid => handleTestCompletion tid true s
  | SseEvent.testCompletedWithData tid => handleTestCompletion tid true s
  | SseEvent.testFailedEv tid => handleTestCompletion tid false s
  | SseEvent.testFailedWithData tid => handleTestCompletion tid false s
  | SseEvent.testCancelledWithData tid =>
      if mapHas s.activeTests tid then
        { s with activeTests := mapErase s.activeTests tid }
      else s
  | SseEvent.errorEv d => errorEventHandler connId d s

/-- One callback delivery.  SSE signals are delivered only while their
connection is the current one (a closed EventSource fires no callbacks); a
timer fires only if still armed and its fire time has been reached; an HTTP
response is matched against the in-flight requests. -/
def step (cfg : Config) (s : SessionState) (sig : Signal) : SessionState :=
  match sig with
  | Signal.tick dt => { s with now := s.now + dt }
  | Signal.sseOpen connId =>
      if s.currentConn = some connId then { s with reconnectAttempts := 0 } else s
  | Signal.sseEvent connId e =>
      if s.currentConn = some connId then processEvent cfg connId e s else s
  | Signal.sseError connId =>
      if s.currentConn = some connId then onError cfg connId s else s
  | Signal.connTimeoutFire connId =>
      match s.connTimers.lookup connId with
      | some fireTime =>
          if fireTime ≤ s.now then
            if (clearConnTimer connId s).finalStatus.isNone
                && ! (clearConnTimer connId s).isIntentionallyClosed then
              settle (cleanup (clearConnTimer connId s)) (SettleCall.resolveCall none)
            else clearConnTimer connId s
          else s
      | none => s
  | Signal.backoffFire timerId =>
      match s.reconnectTimeoutHandle with
      | some (tid, fireTime) =>
          if tid = timerId ∧ fireTime ≤ s.now then
            createConnection cfg { s with reconnectTimeoutHandle := none }
          else s
      | none => s
  | Signal.fallbackResponse reqId resp =>
      match s.pendingFallbacks.lookup reqId with
      | some (kind, connId) =>
          fallbackContinuation kind connId (fetchFinalWorkflowResults resp)
            { s with pendingFallbacks := s.pendingFallbacks.filter (fun p => ¬ p.1 = reqId) }
      | none => s

/-- State at the start of the promise executor, before the initial
createConnection. -/
def initState : SessionState :=
  { reconnectAttempts := 0
    currentConn := none
    isIntentionallyClosed := false
    finalStatus := none
    workflowStarted := false
    reconnectTimeoutHandle := none
    activeTests := []
    testsPassed := 0
    testsFailed := 0
    workflowHeaderLogged := false
    now := 0
    connCounter := 0
    timerCounter := 0
    connTimers := []
    pendingFallbacks := []
    reqCounter := 0
    settles := []
    fallbackCalls := [] }

/-- One monitorWorkflow session: the initial createConnection followed by the
given sequence of callback deliveries. -/
def runSession (cfg : Config) (sigs : List Signal) : SessionState :=
  sigs.foldl (step cfg) (createConnection cfg initState)

end Monitor

namespace Monitor

def cfgT : Config := { taskId := "T", timeoutSeconds := 600 }

def cfgC1 : Config := { taskId := "T", timeoutSeconds := 5 }

def taskBodyCompleted : TaskBody :=
  { status := some "completed", success := some true, total_tests := some 1
    completed_tests := some 1, tests := some [] }

def traceC1 : List Signal :=
  [ Signal.sseOpen 0
  , Signal.sseEvent 0 (SseEvent.initialState ["T"])
  , Signal.sseEvent 0 (SseEvent.initialState [])
  , Signal.tick 5000
  , Signal.connTimeoutFire 0
  , Signal.fallbackResponse 0 (some (200, taskBodyCompleted)) ]

def traceC3twice : List Signal :=
  [ Signal.sseOpen 0
  , Signal.sseEvent 0 (SseEvent.testStartedEv "T" "A" "t1")
  , Signal.sseEvent 0 (SseEvent.testCompletedEv "A")
  , Signal.sseEvent 0 (SseEvent.testStartedEv "T" "A" "t1")
  , Signal.sseEvent 0 (SseEvent.testCompletedEv "A") ]

def traceC3once : List Signal :=
  [ Signal.sseOpen 0
  , Signal.sseEvent 0 (SseEvent.testStartedEv "T" "A" "t1")
  , Signal.sseEvent 0 (SseEvent.testCompletedEv "A") ]

def traceC4 : List Signal :=
  [ Signal.sseOpen 0, Signal.sseEvent 0 (SseEvent.testCompletedEv "X") ]

def traceC5 : List Signal :=
  [ Signal.sseOpen 0
  , Signal.sseEvent 0 (SseEvent.errorEv (some { error := some "boom", message := none, task_id := some "OTHER" })) ]

def traceC6 : List Signal :=
  [ Signal.sseError 0
  , Signal.tick 1000, Signal.backoffFire 0, Signal.sseError 1
  , Signal.tick 2000, Signal.backoffFire 1, Signal.sseError 2
  , Signal.tick 4000, Signal.backoffFire 2, Signal.sseError 3
  , Signal.tick 8000, Signal.backoffFire 3, Signal.sseError 4
  , Signal.tick 16000, Signal.backoffFire 4, Signal.sseError 5
  , Signal.tick 30000, Signal.backoffFire 5, Signal.sseError 6
  , Signal.tick 30000, Signal.backoffFire 6, Signal.sseError 7
  , Signal.tick 30000, Signal.backoffFire 7, Signal.sseError 8
  , Signal.tick 30000, Signal.backoffFire 8, Signal.sseError 9
  , Signal.fallbackResponse 0 none ]

def traceC8 : List Signal :=
  [ Signal.sseOpen 0, Signal.sseEvent 0 (SseEvent.workflowCompletedEv "T") ]


end Monitor

namespace Monitor

/-- Refinement target for the give-up fallback mapping, written from the
claim's words: the status string is compared case-insensitively; completed or
success maps to the completed resolution, failed, error or timeout to the
failed resolution, cancelled to the cancelled resolution, and any other
status resolves the unknown value null. -/
def specStatusMapping (status : String) : SettleCall :=
  if asciiToLower status = "completed" ∨ asciiToLower status = "success" then
    SettleCall.resolveCall (some MonitorResult.completed)
  else if asciiToLower status = "failed" ∨ asciiToLower status = "error" ∨ asciiToLower status = "timeout" then
    SettleCall.resolveCall (some MonitorResult.failed)
  else if asciiToLower status = "cancelled" then
    SettleCall.resolveCall (some MonitorResult.cancelled)
  else SettleCall.resolveCall none

def cfgC7 : Config := { taskId := "T", timeoutSeconds := 1 }

def stateC5 : SessionState := { initState with currentConn := some 0 }

def stateC7 : SessionState :=
  { initState with reconnectAttempts := 1
                   connTimers := [(0, 1000)]
                   reconnectTimeoutHandle := some (0, 1500)
                   now := 1000 }

def stateC8 : SessionState := { initState with currentConn := some 3, reconnectAttempts := 9 }

def dOther : ErrorData := { error := none, message := some "stream auth", task_id := some "OTHER" }

def rEmptyStatus : WorkflowResults :=
  { status := some "", success := none, total_tests := 0, completed_tests := 0
    passed_tests := 0, failed_tests := 0, tests := [] }

def rRunning : WorkflowResults :=
  { status := some "Running", success := none, total_tests := 3, completed_tests := 1
    passed_tests := 1, failed_tests := 0, tests := [] }

/-- Helper: erasing a key removes every entry with that key. -/
theorem mapHas_mapErase (m : List (String × TestInfo)) (k : String) :
    mapHas (mapErase m k) k = false := by
  induction m with
  | nil => rfl
  | cons p t ih =>
    by_cases hpk : p.1 = k
    · simp [mapErase, mapHas, List.filter_cons, hpk, ih]
    · simp [mapErase, mapHas, List.filter_cons, hpk, ih]

/-- Helper: the onerror handler gives up exactly when the post-increment
attempt counter has reached the limit. -/
theorem reconnectDecision_giveUp_iff (a : Nat) (t : Bool) :
    reconnectDecision a t = RetryDecision.giveUp ↔ 10 ≤ a := by
  by_cases h : (10 : Nat) ≤ a
  · simp [reconnectDecision, MAX_RECONNECT_ATTEMPTS, h]
  · simp only [reconnectDecision, MAX_RECONNECT_ATTEMPTS]
    rw [if_neg h]
    cases t <;> simp [h]

end Monitor

namespace Monitor

/-- Helper: the decision tail of the onerror handler never touches the
child-test ledger. -/
theorem onErrorDecide_preserves_ledger (cfg : Config) (c : Nat) (s : SessionState) :
    (onErrorDecide cfg c s).activeTests = s.activeTests
    ∧ (onErrorDecide cfg c s).testsPassed = s.testsPassed
    ∧ (onErrorDecide cfg c s).testsFailed = s.testsFailed := by
  unfold onErrorDecide
  split <;> exact ⟨rfl, rfl, rfl⟩

/-- Helper: the onerror handler never touches the child-test ledger. -/
theorem onError_preserves_ledger (cfg : Config) (c : Nat) (s : SessionState) :
    (onError cfg c s).activeTests = s.activeTests
    ∧ (onError cfg c s).testsPassed = s.testsPassed
    ∧ (onError cfg c s).testsFailed = s.testsFailed := by
  unfold onError
  split
  · exact ⟨rfl, rfl, rfl⟩
  · exact onErrorDecide_preserves_ledger cfg c _

/-- Helper: opening a new connection never touches the child-test ledger. -/
theorem createConnection_preserves_ledger (cfg : Config) (s : SessionState) :
    (createConnection cfg s).activeTests = s.activeTests
    ∧ (createConnection cfg s).testsPassed = s.testsPassed
    ∧ (createConnection cfg s).testsFailed = s.testsFailed := by
  unfold createConnection
  split
  · exact ⟨rfl, rfl, rfl⟩
  · split <;> exact ⟨rfl, rfl, rfl⟩

/-- Helper: createConnection records no fetchFinalWorkflowResults call. -/
theorem createConnection_preserves_fallbackCalls (cfg : Config) (s : SessionState) :
    (createConnection cfg s).fallbackCalls = s.fallbackCalls := by
  unfold createConnection
  split
  · rfl
  · split <;> rfl

/-- Helper: the give-up fallback continuation records no new fetch call. -/
theorem giveUpContinuation_preserves_fallbackCalls (r : Option WorkflowResults) (s : SessionState) :
    (giveUpContinuation r s).fallbackCalls = s.fallbackCalls := by
  unfold giveUpContinuation
  split
  · split
    · split
      · rfl
      · split
        · rfl
        · split <;> rfl
    · rfl
  · rfl

/-- Helper: the vanished-workflow fallback continuation records no new fetch call. -/
theorem vanishedContinuation_preserves_fallbackCalls (c : Nat) (r : Option WorkflowResults) (s : SessionState) :
    (vanishedContinuation c r s).fallbackCalls = s.fallbackCalls := by
  unfold vanishedContinuation
  split
  · split
    · split
      · rfl
      · split
        · rfl
        · split <;> rfl
    · rfl
  · rfl

/-- Helper: no fallback continuation records a new fetch call. -/
theorem fallbackContinuation_preserves_fallbackCalls (k : FallbackKind) (c : Nat)
    (r : Option WorkflowResults) (s : SessionState) :
    (fallbackContinuation k c r s).fallbackCalls = s.fallbackCalls := by
  cases k with
  | giveUpK => exact giveUpContinuation_preserves_fallbackCalls r s
  | vanishedK => exact vanishedContinuation_preserves_fallbackCalls c r s
  | completedK => rfl
  | failedK => rfl

/-- Helper: an SSE event listener either records no fetch call or records a
single one that is not the give-up fetch. -/
theorem processEvent_fallbackCalls (cfg : Config) (c : Nat) (e : SseEvent) (s : SessionState) :
    (processEvent cfg c e s).fallbackCalls = s.fallbackCalls
    ∨ ∃ k, ¬ k = FallbackKind.giveUpK
        ∧ (processEvent cfg c e s).fallbackCalls = s.fallbackCalls ++ [k] := by
  cases e <;>
    (unfold processEvent processTestStarted handleTestCompletion errorEventHandler
     repeat' split) <;>
    first
      | exact Or.inl rfl
      | exact Or.inr ⟨FallbackKind.vanishedK, by decide, rfl⟩
      | exact Or.inr ⟨FallbackKind.completedK, by decide, rfl⟩
      | exact Or.inr ⟨FallbackKind.failedK, by decide, rfl⟩

end Monitor

namespace Monitor

/-- Helper: across any single callback delivery, the list of
fetchFinalWorkflowResults invocations either stays unchanged, or grows by the
give-up fetch (only from an onerror that reached the attempt limit), or grows
by one non-give-up fetch. -/
theorem step_fallbackCalls (cfg : Config) (s : SessionState) (sig : Signal) :
    (step cfg s sig).fallbackCalls = s.fallbackCalls
    ∨ ((∃ c, sig = Signal.sseError c ∧ 10 ≤ s.reconnectAttempts + 1)
        ∧ (step cfg s sig).fallbackCalls = s.fallbackCalls ++ [FallbackKind.giveUpK])
    ∨ ∃ k, ¬ k = FallbackKind.giveUpK
        ∧ (step cfg s sig).fallbackCalls = s.fallbackCalls ++ [k] := by
  cases sig with
  | tick dt => exact Or.inl rfl
  | sseOpen c =>
      simp only [step]
      split <;> exact Or.inl rfl
  | sseEvent c e =>
      simp only [step]
      split
      · rcases processEvent_fallbackCalls cfg c e s with h1 | h2
        · exact Or.inl h1
        · exact Or.inr (Or.inr h2)
      · exact Or.inl rfl
  | sseError c =>
      simp only [step]
      split
      · simp only [onError]
        split
        · exact Or.inl rfl
        · simp only [onErrorDecide]
          split
          next heq =>
            exact Or.inr (Or.inl ⟨⟨c, rfl, (reconnectDecision_giveUp_iff _ _).mp heq⟩, rfl⟩)
          next => exact Or.inl rfl
          next => exact Or.inl rfl
      · exact Or.inl rfl
  | connTimeoutFire c =>
      simp only [step]
      repeat' split
      all_goals exact Or.inl rfl
  | backoffFire t =>
      simp only [step]
      split
      · split
        · exact Or.inl (createConnection_preserves_fallbackCalls cfg _)
        · exact Or.inl rfl
      · exact Or.inl rfl
  | fallbackResponse reqId resp =>
      simp only [step]
      split
      · exact Or.inl (fallbackContinuation_preserves_fallbackCalls _ _ _ _)
      · exact Or.inl rfl

end Monitor

namespace Monitor

/-- Claim C1 (code evaluation at the failing input): one session in which the
monitored workflow vanishes from the running list (starting a fallback status
fetch), the deadline then elapses (the connection-timeout timer resolves null),
and the fetch response arrives last, invokes the resolve callback twice, with
two different values.  The vanished-workflow continuation only checks
finalStatus, which the timeout resolution path never sets. -/
theorem C1_terminal_result_produced_twice :
    (runSession cfgC1 traceC1).settles
      = [SettleCall.resolveCall none, SettleCall.resolveCall (some MonitorResult.completed)] := by
  decide

/-- Claim C2: calculateBackoffDelay n equals min 30000 (1000 * 2 ^ n), the
delays are non-decreasing and capped at 30000 ms, and the onerror handler
gives up exactly when the post-increment attempt counter reaches 10,
regardless of the remaining time budget. -/
theorem C2_backoff_policy :
    (∀ n, calculateBackoffDelay n = min 30000 (1000 * 2 ^ n))
    ∧ (∀ n, calculateBackoffDelay n ≤ calculateBackoffDelay (n + 1))
    ∧ (∀ n, calculateBackoffDelay n ≤ 30000)
    ∧ (∀ t, reconnectDecision 10 t = RetryDecision.giveUp)
    ∧ (∀ a t, reconnectDecision a t = RetryDecision.giveUp ↔ 10 ≤ a) := by
  refine ⟨fun n => rfl, fun n => ?_, fun n => Nat.min_le_left _ _, fun t => rfl,
    reconnectDecision_giveUp_iff⟩
  have h2 : (2 : Nat) ^ n ≤ 2 ^ (n + 1) := Nat.pow_le_pow_right (by decide) (Nat.le_succ n)
  unfold calculateBackoffDelay MAX_BACKOFF_MS INITIAL_BACKOFF_MS
  omega

/-- Claim C3 counterexample: redelivering the start and terminal events of one
child after its completion was already counted counts the child twice: the
sequence start A, completed A, start A, completed A yields testsPassed 2,
while start A, completed A yields 1. -/
theorem C3_replayed_cycle_double_counts :
    (runSession cfgT traceC3twice).testsPassed = 2
    ∧ (runSession cfgT traceC3once).testsPassed = 1 := by
  decide

/-- Claim C3 (amended): feeding the same child start or terminal event twice
in immediate succession yields the same state as feeding it once; the double
count needs a start redelivered after the terminal was counted. -/
theorem C3_adjacent_redelivery_idempotent (cfg : Config)
    (parentId tid testName : String) (passed : Bool) (s : SessionState) :
    processTestStarted cfg parentId tid testName (processTestStarted cfg parentId tid testName s)
      = processTestStarted cfg parentId tid testName s
    ∧ handleTestCompletion tid passed (handleTestCompletion tid passed s)
      = handleTestCompletion tid passed s := by
  constructor
  · by_cases hp : parentId = cfg.taskId
    · cases hh : mapHas s.activeTests tid with
      | true => simp [processTestStarted, hp, hh]
      | false =>
        have h1 : processTestStarted cfg parentId tid testName s
            = { s with activeTests :=
                  (tid, { name := testName, startTime := s.now }) :: s.activeTests } := by
          simp [processTestStarted, hp, hh]
        have hx : mapHas ((tid, { name := testName, startTime := s.now })
            :: s.activeTests) tid = true := by
          simp [mapHas]
        rw [h1]
        simp [processTestStarted, hp, hx]
    · simp [processTestStarted, hp]
  · cases hh : mapHas s.activeTests tid with
    | false => simp [handleTestCompletion, hh]
    | true => cases passed <;> simp [handleTestCompletion, hh, mapHas_mapErase]

/-- Claim C4 counterexample: a terminal child event with no previously
observed start event updates nothing: neither tally changes and the child is
not recorded. -/
theorem C4_orphan_terminal_not_counted :
    (runSession cfgT traceC4).testsPassed = 0
    ∧ (runSession cfgT traceC4).testsFailed = 0
    ∧ (runSession cfgT traceC4).activeTests = [] := by
  decide

/-- Claim C4 (amended): a terminal event for a child that is not currently
tracked is a complete no-op. -/
theorem C4_untracked_terminal_noop (tid : String) (passed : Bool) (s : SessionState)
    (h : mapHas s.activeTests tid = false) :
    handleTestCompletion tid passed s = s := by
  simp [handleTestCompletion, h]

/-- Claim C4 witness: the no-op at a concrete untracked child. -/
theorem C4_untracked_terminal_noop_witness :
    handleTestCompletion "X" true initState = initState :=
  C4_untracked_terminal_noop "X" true initState (by decide)

/-- Claim C5 counterexample: a parseable error event that carries a task id
different from the session's terminates the session with a rejection instead
of being ignored. -/
theorem C5_unscoped_error_event_rejects :
    (runSession cfgT traceC5).settles = [SettleCall.rejectCall "SSE error: boom"]
    ∧ (runSession cfgT traceC5).isIntentionallyClosed = true := by
  decide

/-- Claim C5 (amended): any error event whose payload parses as JSON tears the
session down and rejects, independently of any task id the payload carries;
only a payload that is not JSON is left to the onerror path. -/
theorem C5_error_event_rejects_regardless_of_scope (cfg : Config) (s : SessionState)
    (c : Nat) (d : ErrorData) (h : s.currentConn = some c) :
    (step cfg s (Signal.sseEvent c (SseEvent.errorEv (some d)))).settles
        = s.settles ++ [SettleCall.rejectCall ("SSE error: " ++ sseErrorMessage d)]
    ∧ (step cfg s (Signal.sseEvent c (SseEvent.errorEv (some d)))).isIntentionallyClosed = true
    ∧ step cfg s (Signal.sseEvent c (SseEvent.errorEv none)) = s := by
  refine ⟨?_, ?_, ?_⟩ <;>
    simp [step, h, processEvent, errorEventHandler, settle, cleanup, clearConnTimer]

/-- Claim C5 witness: the rejection at a concrete unrelated error payload. -/
theorem C5_error_event_witness :
    (step cfgT stateC5 (Signal.sseEvent 0 (SseEvent.errorEv (some dOther)))).settles
        = stateC5.settles ++ [SettleCall.rejectCall ("SSE error: " ++ sseErrorMessage dOther)]
    ∧ (step cfgT stateC5 (Signal.sseEvent 0 (SseEvent.errorEv (some dOther)))).isIntentionallyClosed = true
    ∧ step cfgT stateC5 (Signal.sseEvent 0 (SseEvent.errorEv none)) = stateC5 :=
  C5_error_event_rejects_regardless_of_scope cfgT stateC5 0 dOther (by decide)

/-- Claim C6 counterexample: after ten consecutive connection errors the
give-up fallback runs, and when it yields no answer the session rejects
instead of resolving the unknown value. -/
theorem C6_fallback_no_answer_rejects :
    (runSession cfgT traceC6).settles
      = [SettleCall.rejectCall "SSE connection failed and could not fetch final status"]
    ∧ (runSession cfgT traceC6).reconnectAttempts = 10 := by
  decide

/-- Claim C6 (amended): when the give-up fallback returns no answer, or an
answer whose status is absent or empty, the session rejects with an error
rather than resolving the unknown value. -/
theorem C6_giveup_without_answer_rejects (s : SessionState) (r : WorkflowResults) :
    (giveUpContinuation none s).settles
      = s.settles ++ [SettleCall.rejectCall "SSE connection failed and could not fetch final status"]
    ∧ (statusTruthy r.status = false →
        (giveUpContinuation (some r) s).settles
          = s.settles ++ [SettleCall.rejectCall "SSE connection failed and could not fetch final status"]) := by
  constructor
  · rfl
  · intro h
    simp [giveUpContinuation, h, settle]

/-- Claim C6 witness: the rejection at a concrete empty-status answer. -/
theorem C6_giveup_without_answer_witness :
    (giveUpContinuation (some rEmptyStatus) initState).settles
      = [SettleCall.rejectCall "SSE connection failed and could not fetch final status"] := by
  have h := (C6_giveup_without_answer_rejects initState rEmptyStatus).2 (by decide)
  exact h.trans (by decide)

/-- Claim C7: when the deadline has elapsed while a backoff wait is pending,
the armed connection-timeout timer (scheduled at the deadline) resolves the
session with null, and the pending backoff timer afterwards changes nothing. -/
theorem C7_deadline_beats_backoff (cfg : Config) (s : SessionState)
    (c tid ft bt : Nat)
    (h1 : s.finalStatus = none) (h2 : s.isIntentionallyClosed = false)
    (h3 : s.connTimers.lookup c = some ft) (_h4 : timeoutMsOf cfg ≤ s.now)
    (h5 : ft ≤ s.now)
    (_h6 : s.reconnectTimeoutHandle = some (tid, bt)) :
    (step cfg s (Signal.connTimeoutFire c)).settles = s.settles ++ [SettleCall.resolveCall none]
    ∧ step cfg (step cfg s (Signal.connTimeoutFire c)) (Signal.backoffFire tid)
        = step cfg s (Signal.connTimeoutFire c) := by
  have hstep : step cfg s (Signal.connTimeoutFire c)
      = settle (cleanup (clearConnTimer c s)) (SettleCall.resolveCall none) := by
    simp only [step, h3]
    rw [if_pos h5]
    simp [clearConnTimer, h1, h2]
  refine ⟨?_, ?_⟩
  · rw [hstep]
    rfl
  · rw [hstep]
    rfl

/-- Claim C7 witness: a concrete session past its deadline with a pending
backoff wait. -/
theorem C7_deadline_witness :
    (step cfgC7 stateC7 (Signal.connTimeoutFire 0)).settles
        = stateC7.settles ++ [SettleCall.resolveCall none]
    ∧ step cfgC7 (step cfgC7 stateC7 (Signal.connTimeoutFire 0)) (Signal.backoffFire 0)
        = step cfgC7 stateC7 (Signal.connTimeoutFire 0) :=
  C7_deadline_beats_backoff cfgC7 stateC7 0 0 1000 1500 (by decide) (by decide) (by decide)
    (by decide) (by decide) (by decide)

/-- Claim C8 counterexample: a session with zero reconnection attempts still
issues a fetchFinalWorkflowResults call, from the workflow_completed handler. -/
theorem C8_fallback_without_giveup :
    (runSession cfgT traceC8).fallbackCalls = [FallbackKind.completedK]
    ∧ (runSession cfgT traceC8).reconnectAttempts = 0
    ∧ (runSession cfgT traceC8).settles = [SettleCall.resolveCall (some MonitorResult.completed)] := by
  decide

/-- Claim C8 (amended): the give-up fallback query specifically is issued only
by a connection error that brings the attempt counter to the limit; the other
fetch calls (workflow completed or failed, vanished workflow) are not give-up
queries. -/
theorem C8_giveup_fetch_only_at_limit (cfg : Config) (s : SessionState) (sig : Signal)
    (h1 : FallbackKind.giveUpK ∉ s.fallbackCalls)
    (h2 : FallbackKind.giveUpK ∈ (step cfg s sig).fallbackCalls) :
    ∃ c, sig = Signal.sseError c ∧ 10 ≤ s.reconnectAttempts + 1 := by
  rcases step_fallbackCalls cfg s sig with h | ⟨hex, _⟩ | ⟨k, hk, he⟩
  · rw [h] at h2
    exact absurd h2 h1
  · exact hex
  · rw [he] at h2
    rcases List.mem_append.mp h2 with hm | hm
    · exact absurd hm h1
    · rw [List.mem_singleton] at hm
      exact absurd hm.symm hk

/-- Claim C8 witness: the give-up fetch at a concrete ninth-attempt state. -/
theorem C8_giveup_fetch_witness :
    ∃ c, Signal.sseError 3 = Signal.sseError c ∧ 10 ≤ stateC8.reconnectAttempts + 1 :=
  C8_giveup_fetch_only_at_limit cfgT stateC8 (Signal.sseError 3) (by decide) (by decide)

/-- Claim C9: when the give-up fallback returns a usable answer, its status is
mapped exactly as the claim states: lowercased, completed or success resolve
completed, failed or error or timeout resolve failed, cancelled resolves
cancelled, anything else resolves null. -/
theorem C9_giveup_status_mapping (s : SessionState) (r : WorkflowResults)
    (h : statusTruthy r.status = true) :
    (giveUpContinuation (some r) s).settles
      = s.settles ++ [specStatusMapping (r.status.getD "")] := by
  unfold giveUpContinuation specStatusMapping
  simp only [h, if_true]
  split_ifs <;> simp [settle]

/-- Claim C9 witness: a still-running answer resolves the unknown value. -/
theorem C9_status_mapping_witness :
    (giveUpContinuation (some rRunning) initState).settles = [SettleCall.resolveCall none] := by
  have h := C9_giveup_status_mapping initState rRunning (by decide)
  exact h.trans (by decide)

/-- Claim C10: tearing down a failed connection (onerror), letting the backoff
timer open a new attempt, and createConnection itself all leave the child-test
ledger and both counters unchanged. -/
theorem C10_ledger_survives_reconnect (cfg : Config) (s : SessionState) (c t : Nat) :
    ((step cfg s (Signal.sseError c)).activeTests = s.activeTests
      ∧ (step cfg s (Signal.sseError c)).testsPassed = s.testsPassed
      ∧ (step cfg s (Signal.sseError c)).testsFailed = s.testsFailed)
    ∧ ((step cfg s (Signal.backoffFire t)).activeTests = s.activeTests
      ∧ (step cfg s (Signal.backoffFire t)).testsPassed = s.testsPassed
      ∧ (step cfg s (Signal.backoffFire t)).testsFailed = s.testsFailed)
    ∧ ((createConnection cfg s).activeTests = s.activeTests
      ∧ (createConnection cfg s).testsPassed = s.testsPassed
      ∧ (createConnection cfg s).testsFailed = s.testsFailed) := by
  refine ⟨?_, ?_, createConnection_preserves_ledger cfg s⟩
  · simp only [step]
    split
    · exact onError_preserves_ledger cfg c s
    · exact ⟨rfl, rfl, rfl⟩
  · simp only [step]
    split
    · split
      · exact createConnection_preserves_ledger cfg _
      · exact ⟨rfl, rfl, rfl⟩
    · exact ⟨rfl, rfl, rfl⟩

end Monitor
